import Mathlib

/-!
Shallow embedding of parts of the `chahidulll/CXAI5` repository (a MONAI-style
medical-imaging toolkit) together with proofs about the embedded code.

Conventions used throughout this development:
* numpy / torch arrays of shape N x C are embedded as `List (List ℚ)`
  (a list of rows) together with an explicit column count `cols`,
  since an empty numpy array still carries its shape;
* machine floats are embedded as exact rationals (`ℚ`);
* Python exceptions are embedded with `Except`: a `raise` becomes `.error`;
* Python dictionaries are embedded as association lists.
-/

/-! ## monai/data/box_utils.py -/

/-- `CORNER_CORNER_MODE` from box_utils.py: `[xmin, ymin, xmax, ymax]` and
`[xmin, ymin, zmin, xmax, ymax, zmax]`. -/
def CORNER_CORNER_MODE : List String := ["xyxy", "xyzxyz"]

/-- `XXYYZZ_MODE` from box_utils.py. -/
def XXYYZZ_MODE : List String := ["xxyy", "xxyyzz"]

/-- `CORNER_SIZE_MODE` from box_utils.py. -/
def CORNER_SIZE_MODE : List String := ["xywh", "xyzwhd"]

/-- `CENTER_SIZE_MODE` from box_utils.py. -/
def CENTER_SIZE_MODE : List String := ["ccwh", "cccwhd"]

/-- `STANDARD_MODE = CORNER_CORNER_MODE`. -/
def STANDARD_MODE : List String := CORNER_CORNER_MODE

/-- `SUPPORTED_MODE` from box_utils.py: all eight supported box modes. -/
def SUPPORTED_MODE : List String :=
  CORNER_CORNER_MODE ++ XXYYZZ_MODE ++ CORNER_SIZE_MODE ++ CENTER_SIZE_MODE

/-- `TO_REMOVE = 0` from box_utils.py. -/
def TO_REMOVE : ℚ := 0

/-- Modelled from the spec: `look_up_option` lives in `monai/utils/module.py`,
which is not under `src/`; the spec describes it as standard validation
"raising on ... unsupported modes", so it returns the option unchanged when it
is among the supported ones and raises otherwise. -/
def lookUpOption (opt : String) (supported : List String) : Except String String :=
  if opt ∈ supported then .ok opt else .error ("Unsupported option: " ++ opt)

/-- `get_standard_mode` from box_utils.py. -/
def getStandardMode (spatialDims : ℕ) : Except String String :=
  if spatialDims = 2 then .ok (STANDARD_MODE.getD 0 "")
  else if spatialDims = 3 then .ok (STANDARD_MODE.getD 1 "")
  else .error "Images should have 2 or 3 dimensions"

/-- `get_dimension` from box_utils.py, specialised to the `bbox`-and-`mode`
call pattern used by `check_box_mode` and `box_convert_mode`: the set
`spatial_dims_set` receives `len(mode) // 2` and `bbox.shape[1] // 2`; if they
disagree the function raises, otherwise the single value is validated to be in
`[2, 3]` (via `look_up_option`, which raises otherwise). -/
def getDimension (cols : ℕ) (mode : String) : Except String ℕ :=
  if mode.length / 2 = cols / 2 then
    if cols / 2 = 2 ∨ cols / 2 = 3 then .ok (cols / 2)
    else .error "Unsupported option: spatial dims"
  else .error "The dimension of bbox, image_size, mode should match with each other."

/-- Indexing `bbox[row, j]`; rows are rational lists. -/
def boxRow (row : List ℚ) (j : ℕ) : ℚ := row.getD j 0

/-- `check_box_mode` from box_utils.py.  `rows` is the list of boxes, `cols`
the second numpy shape component.  The per-row `box_error` or-chains
(`bbox[:, spatial_dims] < 0`, then axes `1 .. spatial_dims-1`, and likewise for
the corner modes) are written as `any` over `List.range spatialDims`;
`box_error.sum() > 0` is `rows.any`. -/
def checkBoxMode (cols : ℕ) (rows : List (List ℚ)) (mode? : Option String) :
    Except String Bool := do
  let mode0 ← match mode? with
    | none => getStandardMode (cols / 2)
    | some m => pure m
  let mode ← lookUpOption mode0 SUPPORTED_MODE
  let spatialDims ← getDimension cols mode
  let boxError ←
    if mode ∈ ["ccwh", "cccwhd", "xywh", "xyzwhd"] then
      pure (rows.any fun row =>
        (List.range spatialDims).any fun axis =>
          decide (boxRow row (spatialDims + axis) < 0))
    else if mode ∈ ["xxyy", "xxyyzz"] then
      pure (rows.any fun row =>
        (List.range spatialDims).any fun axis =>
          decide (boxRow row (2 * axis + 1) < boxRow row (2 * axis)))
    else if mode ∈ ["xyxy", "xyzxyz"] then
      pure (rows.any fun row =>
        (List.range spatialDims).any fun axis =>
          decide (boxRow row (spatialDims + axis) < boxRow row axis))
    else
      throw ("Box mode " ++ mode ++ " not supported")
  pure (!boxError)

/-- `torch.clamp(min=0)`, written with `if` so it evaluates in the kernel;
it agrees with `max q 0`. -/
def clamp0 (q : ℚ) : ℚ := if q < 0 then 0 else q

/-- The per-row computation of `split_into_corners` from box_utils.py, for an
already validated `mode`: outputs `[xmin, xmax, ymin, ymax]` resp.
`[xmin, xmax, ymin, ymax, zmin, zmax]`.  The source splits the N x C array
into its C columns and re-cats them; row-wise this is the permutation /
arithmetic below.  A row of unexpected length (impossible on validated input)
yields `[]`, and the final branch mirrors `raise RuntimeError("Should not be
here")`. -/
def splitIntoCornersRow (mode : String) (row : List ℚ) : List ℚ :=
  if mode = "xxyy" ∨ mode = "xxyyzz" then row
  else if mode = "xyzxyz" then
    match row with
    | [xmin, ymin, zmin, xmax, ymax, zmax] => [xmin, xmax, ymin, ymax, zmin, zmax]
    | _ => []
  else if mode = "xyxy" then
    match row with
    | [xmin, ymin, xmax, ymax] => [xmin, xmax, ymin, ymax]
    | _ => []
  else if mode = "xyzwhd" then
    match row with
    | [xmin, ymin, zmin, w, h, d] =>
        [xmin, xmin + clamp0 (w - TO_REMOVE),
         ymin, ymin + clamp0 (h - TO_REMOVE),
         zmin, zmin + clamp0 (d - TO_REMOVE)]
    | _ => []
  else if mode = "xywh" then
    match row with
    | [xmin, ymin, w, h] =>
        [xmin, xmin + clamp0 (w - TO_REMOVE), ymin, ymin + clamp0 (h - TO_REMOVE)]
    | _ => []
  else if mode = "cccwhd" then
    match row with
    | [xc, yc, zc, w, h, d] =>
        [xc - clamp0 ((w - TO_REMOVE) / 2), xc + clamp0 ((w - TO_REMOVE) / 2),
         yc - clamp0 ((h - TO_REMOVE) / 2), yc + clamp0 ((h - TO_REMOVE) / 2),
         zc - clamp0 ((d - TO_REMOVE) / 2), zc + clamp0 ((d - TO_REMOVE) / 2)]
    | _ => []
  else if mode = "ccwh" then
    match row with
    | [xc, yc, w, h] =>
        [xc - clamp0 ((w - TO_REMOVE) / 2), xc + clamp0 ((w - TO_REMOVE) / 2),
         yc - clamp0 ((h - TO_REMOVE) / 2), yc + clamp0 ((h - TO_REMOVE) / 2)]
    | _ => []
  else []

/-- The per-row `torch.cat` expressions of `box_convert_mode` that rebuild a
row in the destination mode from its split corners (the `spatial_dims == 3`
and `spatial_dims == 2` branches of the source). -/
def cornersToRow (dstMode : String) (c : List ℚ) : List ℚ :=
  match c with
  | [xmin, xmax, ymin, ymax, zmin, zmax] =>
    if dstMode = "xyzxyz" then [xmin, ymin, zmin, xmax, ymax, zmax]
    else if dstMode = "xyzwhd" then
      [xmin, ymin, zmin,
       xmax - xmin + TO_REMOVE, ymax - ymin + TO_REMOVE, zmax - zmin + TO_REMOVE]
    else if dstMode = "cccwhd" then
      [(xmin + xmax + TO_REMOVE) / 2, (ymin + ymax + TO_REMOVE) / 2,
       (zmin + zmax + TO_REMOVE) / 2,
       xmax - xmin + TO_REMOVE, ymax - ymin + TO_REMOVE, zmax - zmin + TO_REMOVE]
    else []
  | [xmin, xmax, ymin, ymax] =>
    if dstMode = "xyxy" then [xmin, ymin, xmax, ymax]
    else if dstMode = "xywh" then
      [xmin, ymin, xmax - xmin + TO_REMOVE, ymax - ymin + TO_REMOVE]
    else if dstMode = "ccwh" then
      [(xmin + xmax + TO_REMOVE) / 2, (ymin + ymax + TO_REMOVE) / 2,
       xmax - xmin + TO_REMOVE, ymax - ymin + TO_REMOVE]
    else []
  | _ => []

/-- `box_convert_mode` from box_utils.py.  The `src_mode == dst_mode` branch
(`deepcopy`) returns the same value; the `dst_mode in ["xxyy", "xxyyzz"]`
branch cats the split corners; the remaining branches dispatch on the spatial
dimension and destination mode, raising `ValueError` for a destination mode
the dispatch does not list. -/
def boxConvertModeRows (rows : List (List ℚ)) (cols : ℕ)
    (srcMode? dstMode? : Option String) : Except String (List (List ℚ)) := do
  let ok ← checkBoxMode cols rows srcMode?
  if !ok then
    throw "Given bbox has invalid values. The box size must be non-negative."
  let src0 ← match srcMode? with
    | none => getStandardMode (cols / 2)
    | some m => pure m
  let dst0 ← match dstMode? with
    | none => getStandardMode (cols / 2)
    | some m => pure m
  let srcMode ← lookUpOption src0 SUPPORTED_MODE
  let dstMode ← lookUpOption dst0 SUPPORTED_MODE
  let spatialDims ← getDimension cols srcMode
  if srcMode.length ≠ dstMode.length then
    throw "The dimension of the new mode should have the same spatial dimension as the old mode."
  if srcMode = dstMode then
    pure rows
  else if dstMode ∈ ["xxyy", "xxyyzz"] then
    pure (rows.map (splitIntoCornersRow srcMode))
  else if spatialDims = 3 then
    if dstMode = "xyzxyz" ∨ dstMode = "xyzwhd" ∨ dstMode = "cccwhd" then
      pure (rows.map fun r => cornersToRow dstMode (splitIntoCornersRow srcMode r))
    else
      throw ("We support only bbox mode in SUPPORTED_MODE, got " ++ dstMode)
  else if spatialDims = 2 then
    if dstMode = "xyxy" ∨ dstMode = "xywh" ∨ dstMode = "ccwh" then
      pure (rows.map fun r => cornersToRow dstMode (splitIntoCornersRow srcMode r))
    else
      throw ("We support only bbox mode in SUPPORTED_MODE, got " ++ dstMode)
  else
    throw "Images should have 2 or 3 dimensions"

/-- The sizes of one box under a given mode's encoding (specification side,
used to state what "negative size" means for each mode). -/
def modeSizes (mode : String) (row : List ℚ) : List ℚ :=
  if mode = "xyxy" then [boxRow row 2 - boxRow row 0, boxRow row 3 - boxRow row 1]
  else if mode = "xyzxyz" then
    [boxRow row 3 - boxRow row 0, boxRow row 4 - boxRow row 1, boxRow row 5 - boxRow row 2]
  else if mode = "xxyy" then [boxRow row 1 - boxRow row 0, boxRow row 3 - boxRow row 2]
  else if mode = "xxyyzz" then
    [boxRow row 1 - boxRow row 0, boxRow row 3 - boxRow row 2, boxRow row 5 - boxRow row 4]
  else if mode = "xywh" ∨ mode = "ccwh" then [boxRow row 2, boxRow row 3]
  else if mode = "xyzwhd" ∨ mode = "cccwhd" then
    [boxRow row 3, boxRow row 4, boxRow row 5]
  else []

/-- A box has negative size under a mode's encoding. -/
def hasNegSize (mode : String) (row : List ℚ) : Prop :=
  ∃ s ∈ modeSizes mode row, s < 0

instance (mode : String) (row : List ℚ) : Decidable (hasNegSize mode row) := by
  unfold hasNegSize; infer_instance

instance {ε α : Type} [DecidableEq ε] [DecidableEq α] : DecidableEq (Except ε α) := fun a b =>
  match a, b with
  | .ok x, .ok y =>
      if h : x = y then .isTrue (by rw [h]) else .isFalse (by intro hh; cases hh; exact h rfl)
  | .error x, .error y =>
      if h : x = y then .isTrue (by rw [h]) else .isFalse (by intro hh; cases hh; exact h rfl)
  | .ok _, .error _ => .isFalse (by intro h; exact Except.noConfusion h)
  | .error _, .ok _ => .isFalse (by intro h; exact Except.noConfusion h)

/-! ### Helper lemmas about the box modes -/

lemma len_xyxy : "xyxy".length = 4 := rfl

lemma len_xyzxyz : "xyzxyz".length = 6 := rfl

lemma len_xxyy : "xxyy".length = 4 := rfl

lemma len_xxyyzz : "xxyyzz".length = 6 := rfl

lemma len_xywh : "xywh".length = 4 := rfl

lemma len_xyzwhd : "xyzwhd".length = 6 := rfl

lemma len_ccwh : "ccwh".length = 4 := rfl

lemma len_cccwhd : "cccwhd".length = 6 := rfl

lemma range_two : List.range 2 = [0, 1] := rfl

lemma range_three : List.range 3 = [0, 1, 2] := rfl

example : checkBoxMode 4 [[0, 0, 2, 3]] (some "xywh") = .ok true := by rfl
example : checkBoxMode 4 [[0, 0, 2, -3]] (some "xywh") = .ok false := by rfl
example : checkBoxMode 4 [[0, 0, 2, 3]] (some "bad") =
    .error "Unsupported option: bad" := by rfl
example : boxConvertModeRows [[0, 0, 2, 4]] 4 (some "xywh") (some "ccwh") =
    .ok [[1, 2, 2, 4]] := by
  simp [boxConvertModeRows, checkBoxMode, lookUpOption, getStandardMode, getDimension,
    boxRow, splitIntoCornersRow, cornersToRow, clamp0, TO_REMOVE, SUPPORTED_MODE,
    CORNER_CORNER_MODE, XXYYZZ_MODE, CORNER_SIZE_MODE, CENTER_SIZE_MODE,
    Except.bind, pure, Bind.bind, Except.pure, len_xywh, len_ccwh, range_two]
  norm_num
example : boxConvertModeRows [[1, 2, 2, 4]] 4 (some "ccwh") (some "xywh") =
    .ok [[0, 0, 2, 4]] := by
  simp [boxConvertModeRows, checkBoxMode, lookUpOption, getStandardMode, getDimension,
    boxRow, splitIntoCornersRow, cornersToRow, clamp0, TO_REMOVE, SUPPORTED_MODE,
    CORNER_CORNER_MODE, XXYYZZ_MODE, CORNER_SIZE_MODE, CENTER_SIZE_MODE,
    Except.bind, pure, Bind.bind, Except.pure, len_xywh, len_ccwh, range_two]
  norm_num


lemma supported_mode_cases (m : String) (hm : m ∈ SUPPORTED_MODE) :
    m = "xyxy" ∨ m = "xyzxyz" ∨ m = "xxyy" ∨ m = "xxyyzz" ∨
    m = "xywh" ∨ m = "xyzwhd" ∨ m = "ccwh" ∨ m = "cccwhd" := by
  simpa [SUPPORTED_MODE, CORNER_CORNER_MODE, XXYYZZ_MODE, CORNER_SIZE_MODE,
    CENTER_SIZE_MODE] using hm

lemma supported_mode_length (m : String) (hm : m ∈ SUPPORTED_MODE) :
    m.length = 4 ∨ m.length = 6 := by
  rcases supported_mode_cases m hm with rfl | rfl | rfl | rfl | rfl | rfl | rfl | rfl <;>
    simp [len_xyxy, len_xyzxyz, len_xxyy, len_xxyyzz, len_xywh, len_xyzwhd, len_ccwh, len_cccwhd]

lemma checkBoxMode_supported_eval (m : String) (hm : m ∈ SUPPORTED_MODE)
    (rows : List (List ℚ)) :
    checkBoxMode m.length rows (some m) =
      .ok (!rows.any fun row => decide (hasNegSize m row)) := by
  rcases supported_mode_cases m hm with rfl | rfl | rfl | rfl | rfl | rfl | rfl | rfl <;>
  · simp [checkBoxMode, lookUpOption, getDimension, SUPPORTED_MODE, CORNER_CORNER_MODE,
      XXYYZZ_MODE, CORNER_SIZE_MODE, CENTER_SIZE_MODE, Except.bind, bind, pure, Except.pure,
      len_xyxy, len_xyzxyz, len_xxyy, len_xxyyzz, len_xywh, len_xyzwhd, len_ccwh, len_cccwhd]
    congr 1
    funext row
    rw [Bool.eq_iff_iff]
    simp [range_two, range_three, hasNegSize, modeSizes, boxRow]

lemma checkBoxMode_unsupported (m : String) (hm : m ∉ SUPPORTED_MODE) (cols : ℕ)
    (rows : List (List ℚ)) :
    checkBoxMode cols rows (some m) = .error ("Unsupported option: " ++ m) := by
  simp [checkBoxMode, lookUpOption, hm, Except.bind, bind, pure, Except.pure]

lemma boxConvertModeRows_unsupported_src (m : String) (hm : m ∉ SUPPORTED_MODE) (cols : ℕ)
    (rows : List (List ℚ)) (dstMode? : Option String) :
    boxConvertModeRows rows cols (some m) dstMode? = .error ("Unsupported option: " ++ m) := by
  simp [boxConvertModeRows, checkBoxMode_unsupported m hm, Except.bind, bind, pure, Except.pure]

lemma boxConvertModeRows_unsupported_dst (m : String) (hm : m ∉ SUPPORTED_MODE) (cols : ℕ)
    (rows : List (List ℚ)) (srcMode? : Option String) :
    ∃ e, boxConvertModeRows rows cols srcMode? (some m) = .error e := by
  unfold boxConvertModeRows
  rcases h1 : checkBoxMode cols rows srcMode? with e | b
  · exact ⟨e, by simp [h1, Except.bind, bind, pure, Except.pure]⟩
  rcases b with _ | _
  · exact ⟨"Given bbox has invalid values. The box size must be non-negative.",
      by simp [h1, Except.bind, bind, pure, Except.pure]⟩
  rcases srcMode? with _ | src
  · rcases h2 : getStandardMode (cols / 2) with e | smode
    · exact ⟨e, by simp [h1, h2, Except.bind, bind, pure, Except.pure]⟩
    · by_cases hs : smode ∈ SUPPORTED_MODE
      · exact ⟨"Unsupported option: " ++ m,
          by simp [h1, h2, lookUpOption, hs, hm, Except.bind, bind, pure, Except.pure]⟩
      · exact ⟨"Unsupported option: " ++ smode,
          by simp [h1, h2, lookUpOption, hs, hm, Except.bind, bind, pure, Except.pure]⟩
  · by_cases hs : src ∈ SUPPORTED_MODE
    · exact ⟨"Unsupported option: " ++ m,
        by simp [h1, lookUpOption, hs, hm, Except.bind, bind, pure, Except.pure]⟩
    · exact ⟨"Unsupported option: " ++ src,
        by simp [h1, lookUpOption, hs, hm, Except.bind, bind, pure, Except.pure]⟩

/-! ### Round-trip infrastructure for box mode conversion -/

/-- A corner list is ordered on each axis.  For 4-element corner lists the
missing z entries default to `0` via `boxRow`, making the last conjunct
trivial. -/
def sortedCorners (c : List ℚ) : Prop :=
  boxRow c 0 ≤ boxRow c 1 ∧ boxRow c 2 ≤ boxRow c 3 ∧ boxRow c 4 ≤ boxRow c 5

/-- Rebuilding a row of the given mode from split corners: the
`dst_mode in ["xxyy", "xxyyzz"]` branch of `box_convert_mode` cats the split
corners unchanged, every other destination goes through `cornersToRow`. -/
def fromCornersRow (mode : String) (c : List ℚ) : List ℚ :=
  if mode = "xxyy" ∨ mode = "xxyyzz" then c else cornersToRow mode c

lemma clamp0_eq_self {q : ℚ} (h : 0 ≤ q) : clamp0 q = q := by
  simp only [clamp0, if_neg (not_lt.mpr h)]

lemma exists_eq_len4 (r : List ℚ) (h : r.length = 4) :
    ∃ a b c d, r = [a, b, c, d] := by
  rcases r with _ | ⟨a, r⟩
  · simp at h
  rcases r with _ | ⟨b, r⟩
  · simp at h
  rcases r with _ | ⟨c, r⟩
  · simp at h
  rcases r with _ | ⟨d, r⟩
  · simp at h
  rcases r with _ | ⟨e, r⟩
  · exact ⟨a, b, c, d, rfl⟩
  · simp at h
lemma exists_eq_len6 (r : List ℚ) (h : r.length = 6) :
    ∃ a b c d e f, r = [a, b, c, d, e, f] := by
  rcases r with _ | ⟨a, r⟩
  · simp at h
  rcases r with _ | ⟨b, r⟩
  · simp at h
  rcases r with _ | ⟨c, r⟩
  · simp at h
  rcases r with _ | ⟨d, r⟩
  · simp at h
  rcases r with _ | ⟨e, r⟩
  · simp at h
  rcases r with _ | ⟨f, r⟩
  · simp at h
  rcases r with _ | ⟨g, r⟩
  · exact ⟨a, b, c, d, e, f, rfl⟩
  · simp at h

lemma split_spec (m : String) (hm : m ∈ SUPPORTED_MODE) (r : List ℚ)
    (hr : r.length = m.length) (hnn : ¬ hasNegSize m r) :
    (splitIntoCornersRow m r).length = m.length ∧
    sortedCorners (splitIntoCornersRow m r) ∧
    fromCornersRow m (splitIntoCornersRow m r) = r := by
  rcases supported_mode_cases m hm with rfl | rfl | rfl | rfl | rfl | rfl | rfl | rfl
  · obtain ⟨a, b, c, d, rfl⟩ := exists_eq_len4 r (by simpa [len_xyxy] using hr)
    simp [hasNegSize, modeSizes, boxRow, not_or, not_lt] at hnn
    obtain ⟨h1, h2⟩ := hnn
    refine ⟨by simp [splitIntoCornersRow, len_xyxy], ?_, ?_⟩
    · simp [splitIntoCornersRow, sortedCorners, boxRow]
      all_goals try and_intros
      all_goals linarith
    · simp [splitIntoCornersRow, fromCornersRow, cornersToRow, TO_REMOVE]
  · obtain ⟨a, b, c, d, e, f, rfl⟩ := exists_eq_len6 r (by simpa [len_xyzxyz] using hr)
    simp [hasNegSize, modeSizes, boxRow, not_or, not_lt] at hnn
    obtain ⟨h1, h2, h3⟩ := hnn
    refine ⟨by simp [splitIntoCornersRow, len_xyzxyz], ?_, ?_⟩
    · simp [splitIntoCornersRow, sortedCorners, boxRow]
      all_goals try and_intros
      all_goals linarith
    · simp [splitIntoCornersRow, fromCornersRow, cornersToRow, TO_REMOVE]
  · obtain ⟨a, b, c, d, rfl⟩ := exists_eq_len4 r (by simpa [len_xxyy] using hr)
    simp [hasNegSize, modeSizes, boxRow, not_or, not_lt] at hnn
    obtain ⟨h1, h2⟩ := hnn
    refine ⟨by simp [splitIntoCornersRow, len_xxyy], ?_, ?_⟩
    · simp [splitIntoCornersRow, sortedCorners, boxRow]
      all_goals try and_intros
      all_goals linarith
    · simp [splitIntoCornersRow, fromCornersRow]
  · obtain ⟨a, b, c, d, e, f, rfl⟩ := exists_eq_len6 r (by simpa [len_xxyyzz] using hr)
    simp [hasNegSize, modeSizes, boxRow, not_or, not_lt] at hnn
    obtain ⟨h1, h2, h3⟩ := hnn
    refine ⟨by simp [splitIntoCornersRow, len_xxyyzz], ?_, ?_⟩
    · simp [splitIntoCornersRow, sortedCorners, boxRow]
      all_goals try and_intros
      all_goals linarith
    · simp [splitIntoCornersRow, fromCornersRow]
  · obtain ⟨a, b, c, d, rfl⟩ := exists_eq_len4 r (by simpa [len_xywh] using hr)
    simp [hasNegSize, modeSizes, boxRow, not_or, not_lt] at hnn
    obtain ⟨h1, h2⟩ := hnn
    refine ⟨by simp [splitIntoCornersRow, TO_REMOVE, clamp0_eq_self h1, clamp0_eq_self h2,
      len_xywh], ?_, ?_⟩
    · simp [splitIntoCornersRow, sortedCorners, boxRow, TO_REMOVE, clamp0_eq_self h1,
        clamp0_eq_self h2]
      all_goals try and_intros
      all_goals linarith
    · simp [splitIntoCornersRow, fromCornersRow, cornersToRow, TO_REMOVE,
        clamp0_eq_self h1, clamp0_eq_self h2]
  · obtain ⟨a, b, c, d, e, f, rfl⟩ := exists_eq_len6 r (by simpa [len_xyzwhd] using hr)
    simp [hasNegSize, modeSizes, boxRow, not_or, not_lt] at hnn
    obtain ⟨h1, h2, h3⟩ := hnn
    refine ⟨by simp [splitIntoCornersRow, TO_REMOVE, clamp0_eq_self h1, clamp0_eq_self h2,
      clamp0_eq_self h3, len_xyzwhd], ?_, ?_⟩
    · simp [splitIntoCornersRow, sortedCorners, boxRow, TO_REMOVE, clamp0_eq_self h1,
        clamp0_eq_self h2, clamp0_eq_self h3]
      all_goals try and_intros
      all_goals linarith
    · simp [splitIntoCornersRow, fromCornersRow, cornersToRow, TO_REMOVE,
        clamp0_eq_self h1, clamp0_eq_self h2, clamp0_eq_self h3]
  · obtain ⟨a, b, c, d, rfl⟩ := exists_eq_len4 r (by simpa [len_ccwh] using hr)
    simp [hasNegSize, modeSizes, boxRow, not_or, not_lt] at hnn
    obtain ⟨h1, h2⟩ := hnn
    have hc : (0:ℚ) ≤ c / 2 := by linarith
    have hd : (0:ℚ) ≤ d / 2 := by linarith
    refine ⟨by simp [splitIntoCornersRow, TO_REMOVE, clamp0_eq_self hc, clamp0_eq_self hd,
      len_ccwh], ?_, ?_⟩
    · simp [splitIntoCornersRow, sortedCorners, boxRow, TO_REMOVE, clamp0_eq_self hc,
        clamp0_eq_self hd]
      all_goals try and_intros
      all_goals linarith
    · simp [splitIntoCornersRow, fromCornersRow, cornersToRow, TO_REMOVE, clamp0_eq_self hc,
        clamp0_eq_self hd]
  · obtain ⟨a, b, c, d, e, f, rfl⟩ := exists_eq_len6 r (by simpa [len_cccwhd] using hr)
    simp [hasNegSize, modeSizes, boxRow, not_or, not_lt] at hnn
    obtain ⟨h1, h2, h3⟩ := hnn
    have hc : (0:ℚ) ≤ d / 2 := by linarith
    have hd : (0:ℚ) ≤ e / 2 := by linarith
    have he : (0:ℚ) ≤ f / 2 := by linarith
    refine ⟨by simp [splitIntoCornersRow, TO_REMOVE, clamp0_eq_self hc, clamp0_eq_self hd,
      clamp0_eq_self he, len_cccwhd], ?_, ?_⟩
    · simp [splitIntoCornersRow, sortedCorners, boxRow, TO_REMOVE, clamp0_eq_self hc,
        clamp0_eq_self hd, clamp0_eq_self he]
      all_goals try and_intros
      all_goals linarith
    · simp [splitIntoCornersRow, fromCornersRow, cornersToRow, TO_REMOVE, clamp0_eq_self hc,
        clamp0_eq_self hd, clamp0_eq_self he]

lemma fromCorners_spec (m : String) (hm : m ∈ SUPPORTED_MODE) (c : List ℚ)
    (hc : c.length = m.length) (hs : sortedCorners c) :
    (fromCornersRow m c).length = m.length ∧
    ¬ hasNegSize m (fromCornersRow m c) ∧
    splitIntoCornersRow m (fromCornersRow m c) = c := by
  rcases supported_mode_cases m hm with rfl | rfl | rfl | rfl | rfl | rfl | rfl | rfl
  · obtain ⟨p, q, u, v, rfl⟩ := exists_eq_len4 c (by simpa [len_xyxy] using hc)
    simp [sortedCorners, boxRow] at hs
    obtain ⟨hs1, hs2⟩ := hs
    refine ⟨by simp [fromCornersRow, cornersToRow, len_xyxy], ?_, ?_⟩
    · simp [fromCornersRow, cornersToRow, hasNegSize, modeSizes, boxRow, not_or, not_lt]
      all_goals try and_intros
      all_goals linarith
    · simp [fromCornersRow, cornersToRow, splitIntoCornersRow]
  · obtain ⟨p, q, u, v, w, x, rfl⟩ := exists_eq_len6 c (by simpa [len_xyzxyz] using hc)
    simp [sortedCorners, boxRow] at hs
    obtain ⟨hs1, hs2, hs3⟩ := hs
    refine ⟨by simp [fromCornersRow, cornersToRow, len_xyzxyz], ?_, ?_⟩
    · simp [fromCornersRow, cornersToRow, hasNegSize, modeSizes, boxRow, not_or, not_lt]
      all_goals try and_intros
      all_goals linarith
    · simp [fromCornersRow, cornersToRow, splitIntoCornersRow]
  · obtain ⟨p, q, u, v, rfl⟩ := exists_eq_len4 c (by simpa [len_xxyy] using hc)
    simp [sortedCorners, boxRow] at hs
    obtain ⟨hs1, hs2⟩ := hs
    refine ⟨by simp [fromCornersRow, len_xxyy], ?_, ?_⟩
    · simp [fromCornersRow, hasNegSize, modeSizes, boxRow, not_or, not_lt]
      all_goals try and_intros
      all_goals linarith
    · simp [fromCornersRow, splitIntoCornersRow]
  · obtain ⟨p, q, u, v, w, x, rfl⟩ := exists_eq_len6 c (by simpa [len_xxyyzz] using hc)
    simp [sortedCorners, boxRow] at hs
    obtain ⟨hs1, hs2, hs3⟩ := hs
    refine ⟨by simp [fromCornersRow, len_xxyyzz], ?_, ?_⟩
    · simp [fromCornersRow, hasNegSize, modeSizes, boxRow, not_or, not_lt]
      all_goals try and_intros
      all_goals linarith
    · simp [fromCornersRow, splitIntoCornersRow]
  · obtain ⟨p, q, u, v, rfl⟩ := exists_eq_len4 c (by simpa [len_xywh] using hc)
    simp [sortedCorners, boxRow] at hs
    obtain ⟨hs1, hs2⟩ := hs
    have h1 : (0:ℚ) ≤ q - p := by linarith
    have h2 : (0:ℚ) ≤ v - u := by linarith
    refine ⟨by simp [fromCornersRow, cornersToRow, len_xywh], ?_, ?_⟩
    · simp [fromCornersRow, cornersToRow, hasNegSize, modeSizes, boxRow, not_or, not_lt,
        TO_REMOVE]
      all_goals try and_intros
      all_goals linarith
    · simp [fromCornersRow, cornersToRow, splitIntoCornersRow, TO_REMOVE,
        clamp0_eq_self h1, clamp0_eq_self h2]
  · obtain ⟨p, q, u, v, w, x, rfl⟩ := exists_eq_len6 c (by simpa [len_xyzwhd] using hc)
    simp [sortedCorners, boxRow] at hs
    obtain ⟨hs1, hs2, hs3⟩ := hs
    have h1 : (0:ℚ) ≤ q - p := by linarith
    have h2 : (0:ℚ) ≤ v - u := by linarith
    have h3 : (0:ℚ) ≤ x - w := by linarith
    refine ⟨by simp [fromCornersRow, cornersToRow, len_xyzwhd], ?_, ?_⟩
    · simp [fromCornersRow, cornersToRow, hasNegSize, modeSizes, boxRow, not_or, not_lt,
        TO_REMOVE]
      all_goals try and_intros
      all_goals linarith
    · simp [fromCornersRow, cornersToRow, splitIntoCornersRow, TO_REMOVE,
        clamp0_eq_self h1, clamp0_eq_self h2, clamp0_eq_self h3]
  · obtain ⟨p, q, u, v, rfl⟩ := exists_eq_len4 c (by simpa [len_ccwh] using hc)
    simp [sortedCorners, boxRow] at hs
    obtain ⟨hs1, hs2⟩ := hs
    have h1 : (0:ℚ) ≤ (q - p) / 2 := by linarith
    have h2 : (0:ℚ) ≤ (v - u) / 2 := by linarith
    refine ⟨by simp [fromCornersRow, cornersToRow, len_ccwh], ?_, ?_⟩
    · simp [fromCornersRow, cornersToRow, hasNegSize, modeSizes, boxRow, not_or, not_lt,
        TO_REMOVE]
      all_goals try and_intros
      all_goals linarith
    · simp [fromCornersRow, cornersToRow, splitIntoCornersRow, TO_REMOVE,
        clamp0_eq_self h1, clamp0_eq_self h2]
      all_goals try and_intros
      all_goals ring
  · obtain ⟨p, q, u, v, w, x, rfl⟩ := exists_eq_len6 c (by simpa [len_cccwhd] using hc)
    simp [sortedCorners, boxRow] at hs
    obtain ⟨hs1, hs2, hs3⟩ := hs
    have h1 : (0:ℚ) ≤ (q - p) / 2 := by linarith
    have h2 : (0:ℚ) ≤ (v - u) / 2 := by linarith
    have h3 : (0:ℚ) ≤ (x - w) / 2 := by linarith
    refine ⟨by simp [fromCornersRow, cornersToRow, len_cccwhd], ?_, ?_⟩
    · simp [fromCornersRow, cornersToRow, hasNegSize, modeSizes, boxRow, not_or, not_lt,
        TO_REMOVE]
      all_goals try and_intros
      all_goals linarith
    · simp [fromCornersRow, cornersToRow, splitIntoCornersRow, TO_REMOVE,
        clamp0_eq_self h1, clamp0_eq_self h2, clamp0_eq_self h3]
      all_goals try and_intros
      all_goals ring

lemma dst_dispatch (m2 : String) (hm2 : m2 ∈ SUPPORTED_MODE)
    (hxx : ¬(m2 = "xxyy" ∨ m2 = "xxyyzz")) :
    (m2.length = 6 → (m2 = "xyzxyz" ∨ m2 = "xyzwhd" ∨ m2 = "cccwhd")) ∧
    (m2.length = 4 → (m2 = "xyxy" ∨ m2 = "xywh" ∨ m2 = "ccwh")) := by
  rcases supported_mode_cases m2 hm2 with rfl | rfl | rfl | rfl | rfl | rfl | rfl | rfl <;>
    simp_all [len_xyxy, len_xyzxyz, len_xxyy, len_xxyyzz, len_xywh, len_xyzwhd, len_ccwh,
      len_cccwhd]

lemma boxConvertModeRows_eval (m1 m2 : String) (hm1 : m1 ∈ SUPPORTED_MODE)
    (hm2 : m2 ∈ SUPPORTED_MODE) (hlen : m1.length = m2.length) (cols : ℕ)
    (hcols : cols = m1.length) (rows : List (List ℚ))
    (hnn : ∀ r ∈ rows, ¬ hasNegSize m1 r) :
    boxConvertModeRows rows cols (some m1) (some m2) =
      .ok (if m1 = m2 then rows
           else rows.map fun r => fromCornersRow m2 (splitIntoCornersRow m1 r)) := by
  subst hcols
  have hany : (rows.any fun row => decide (hasNegSize m1 row)) = false := by
    simp only [List.any_eq_false]
    intro x hx
    simpa using hnn x hx
  have hchk : checkBoxMode m1.length rows (some m1) = .ok true := by
    rw [checkBoxMode_supported_eval m1 hm1, hany]
    rfl
  have hl1 := supported_mode_length m1 hm1
  have hgd : getDimension m1.length m1 = .ok (m1.length / 2) := by
    rcases hl1 with h | h <;> simp [getDimension, h]
  have hlu1 : lookUpOption m1 SUPPORTED_MODE = .ok m1 := by simp [lookUpOption, hm1]
  have hlu2 : lookUpOption m2 SUPPORTED_MODE = .ok m2 := by simp [lookUpOption, hm2]
  unfold boxConvertModeRows
  simp only [hchk, hlu1, hlu2, hgd, Except.bind, bind, pure, Except.pure, Bool.not_true,
    Bool.false_eq_true, if_false]
  rw [if_neg (show ¬m1.length ≠ m2.length from fun h => h hlen)]
  by_cases h12 : m1 = m2
  · simp [h12]
  · rw [if_neg h12, if_neg h12]
    by_cases hxx : m2 = "xxyy" ∨ m2 = "xxyyzz"
    · have hxx' : m2 ∈ ["xxyy", "xxyyzz"] := by simpa using hxx
      rw [if_pos hxx']
      simp only [fromCornersRow, if_pos hxx]
    · have hxx' : m2 ∉ ["xxyy", "xxyyzz"] := by simpa using hxx
      rw [if_neg hxx']
      have hdisp := dst_dispatch m2 hm2 hxx
      rcases hl1 with h4 | h6
      · have h2 : m1.length / 2 = 2 := by rw [h4]
        have hne3 : ¬ m1.length / 2 = 3 := by rw [h2]; omega
        rw [if_neg hne3, if_pos h2, if_pos (hdisp.2 (by rw [← hlen, h4]))]
        simp only [fromCornersRow, if_neg hxx]
      · have h3 : m1.length / 2 = 3 := by rw [h6]
        rw [if_pos h3, if_pos (hdisp.1 (by rw [← hlen, h6]))]
        simp only [fromCornersRow, if_neg hxx]

/-- C5: `check_box_mode` and `box_convert_mode` raise an error (rather than
returning a value) whenever a given mode string is outside `SUPPORTED_MODE`,
and for a supported mode and an array of matching shape `check_box_mode`
returns `False` exactly when some box in the array has negative size under
that mode's encoding and `True` otherwise. -/
theorem check_box_mode_spec :
    (∀ m : String, m ∉ SUPPORTED_MODE → ∀ cols : ℕ, cols = 4 ∨ cols = 6 →
      ∀ rows : List (List ℚ), ∀ srcMode? dstMode? : Option String,
      checkBoxMode cols rows (some m) = .error ("Unsupported option: " ++ m) ∧
      boxConvertModeRows rows cols (some m) dstMode? = .error ("Unsupported option: " ++ m) ∧
      ∃ e, boxConvertModeRows rows cols srcMode? (some m) = .error e) ∧
    (∀ m ∈ SUPPORTED_MODE, ∀ rows : List (List ℚ), (∀ r ∈ rows, r.length = m.length) →
      ((checkBoxMode m.length rows (some m) = .ok false ↔ ∃ r ∈ rows, hasNegSize m r) ∧
       (checkBoxMode m.length rows (some m) = .ok true ↔ ¬ ∃ r ∈ rows, hasNegSize m r))) := by
  constructor
  · intro m hm cols _ rows srcMode? dstMode?
    exact ⟨checkBoxMode_unsupported m hm cols rows,
      boxConvertModeRows_unsupported_src m hm cols rows dstMode?,
      boxConvertModeRows_unsupported_dst m hm cols rows srcMode?⟩
  · intro m hm rows _
    rw [checkBoxMode_supported_eval m hm]
    constructor
    · rw [Except.ok.injEq]
      simp [List.any_eq_true]
    · rw [Except.ok.injEq]
      simp [List.any_eq_true]

/-- Witness for C5 at concrete inputs: the unsupported mode "abcd" raises, and
a supported-mode box with a negative width yields `False`. -/
theorem check_box_mode_spec_witness :
    checkBoxMode 4 [[(1:ℚ), 2, 3, 4]] (some "abcd") =
      .error ("Unsupported option: " ++ "abcd") ∧
    checkBoxMode 4 [[(0:ℚ), 0, 2, -1]] (some "xywh") = .ok false := by
  constructor
  · exact (check_box_mode_spec.1 "abcd" (by decide) 4 (Or.inl rfl)
      [[(1:ℚ), 2, 3, 4]] none none).1
  · exact (check_box_mode_spec.2 "xywh" (by decide) [[(0:ℚ), 0, 2, -1]]
      (by decide)).1.mpr ⟨[(0:ℚ), 0, 2, -1], by simp, by decide⟩

/-- C8: in exact rational arithmetic, converting a non-negative-size box array
from a supported mode `m1` to a supported mode `m2` of the same spatial
dimension and back returns the original array. -/
theorem box_convert_mode_round_trip :
    ∀ m1 ∈ SUPPORTED_MODE, ∀ m2 ∈ SUPPORTED_MODE, m1.length = m2.length →
    ∀ rows : List (List ℚ), (∀ r ∈ rows, r.length = m1.length) →
    (∀ r ∈ rows, ¬ hasNegSize m1 r) →
    ∃ mid, boxConvertModeRows rows m1.length (some m1) (some m2) = .ok mid ∧
      boxConvertModeRows mid m1.length (some m2) (some m1) = .ok rows := by
  intro m1 hm1 m2 hm2 hlen rows hlens hnn
  by_cases h12 : m1 = m2
  · subst h12
    exact ⟨rows, by simp [boxConvertModeRows_eval m1 m1 hm1 hm1 rfl _ rfl rows hnn],
      by simp [boxConvertModeRows_eval m1 m1 hm1 hm1 rfl _ rfl rows hnn]⟩
  · refine ⟨rows.map fun r => fromCornersRow m2 (splitIntoCornersRow m1 r), ?_, ?_⟩
    · rw [boxConvertModeRows_eval m1 m2 hm1 hm2 hlen _ rfl rows hnn, if_neg h12]
    · have hmidnn : ∀ r ∈ rows.map (fun r => fromCornersRow m2 (splitIntoCornersRow m1 r)),
          ¬ hasNegSize m2 r := by
        intro r hr
        rw [List.mem_map] at hr
        obtain ⟨r0, hr0, rfl⟩ := hr
        have hsp := split_spec m1 hm1 r0 (hlens r0 hr0) (hnn r0 hr0)
        exact (fromCorners_spec m2 hm2 _ (by rw [hsp.1, hlen]) hsp.2.1).2.1
      rw [boxConvertModeRows_eval m2 m1 hm2 hm1 hlen.symm _ hlen _ hmidnn,
        if_neg (fun h => h12 h.symm), List.map_map]
      have hcomp : rows.map ((fun r => fromCornersRow m1 (splitIntoCornersRow m2 r)) ∘
          fun r => fromCornersRow m2 (splitIntoCornersRow m1 r)) = rows := by
        have h2 : ∀ r ∈ rows,
            ((fun r => fromCornersRow m1 (splitIntoCornersRow m2 r)) ∘
              fun r => fromCornersRow m2 (splitIntoCornersRow m1 r)) r = id r := by
          intro r hr
          have hsp := split_spec m1 hm1 r (hlens r hr) (hnn r hr)
          have hfc := fromCorners_spec m2 hm2 _ (by rw [hsp.1, hlen]) hsp.2.1
          simp only [Function.comp, id]
          rw [hfc.2.2, hsp.2.2]
        rw [List.map_congr_left h2, List.map_id]
      rw [hcomp]

/-- Witness for C8: a concrete `xywh` box converted to `ccwh` and back. -/
theorem box_convert_mode_round_trip_witness :
    ∃ mid, boxConvertModeRows [[(0:ℚ), 0, 2, 4]] ("xywh".length)
        (some "xywh") (some "ccwh") = .ok mid ∧
      boxConvertModeRows mid ("xywh".length) (some "ccwh") (some "xywh") =
        .ok [[(0:ℚ), 0, 2, 4]] :=
  box_convert_mode_round_trip "xywh" (by decide) "ccwh" (by decide) rfl
    [[(0:ℚ), 0, 2, 4]] (by decide) (by decide)

/-! ## monai/losses/utils.py -/

/-- `compute_tp_fp_fn` from losses/utils.py, restricted to its
`ord == 1 and not soft_label` branch (the branch claim C9 is about); the
vector-norm branch is represented by `none`.  A pair of tensors of equal shape
is embedded as a list of reduction groups: the outer list ranges over the axes
kept by `torch.sum(..., dim=reduce_axis)`, the inner list over the reduced
elements, each element carrying its `(input, target)` value pair. -/
def computeTpFpFn (ord : ℕ) (softLabel : Bool) (decoupled : Bool)
    (groups : List (List (ℚ × ℚ))) :
    Option (List ℚ × List ℚ × List ℚ) :=
  if ord = 1 ∧ softLabel = false then
    let tp := groups.map fun g => (g.map fun p => p.1 * p.2).sum
    if decoupled then
      some (tp,
        groups.map fun g => (g.map fun p => p.1).sum - (g.map fun p => p.1 * p.2).sum,
        groups.map fun g => (g.map fun p => p.2).sum - (g.map fun p => p.1 * p.2).sum)
    else
      some (tp,
        groups.map fun g => (g.map fun p => p.1 * (1 - p.2)).sum,
        groups.map fun g => (g.map fun p => (1 - p.1) * p.2).sum)
  else none

lemma sum_decoupled_fp (g : List (ℚ × ℚ)) :
    (g.map fun p => p.1).sum - (g.map fun p => p.1 * p.2).sum
      = (g.map fun p => p.1 * (1 - p.2)).sum := by
  induction g with
  | nil => simp
  | cons p g ih =>
      simp only [List.map_cons, List.sum_cons]
      rw [← ih]
      ring

lemma sum_decoupled_fn (g : List (ℚ × ℚ)) :
    (g.map fun p => p.2).sum - (g.map fun p => p.1 * p.2).sum
      = (g.map fun p => (1 - p.1) * p.2).sum := by
  induction g with
  | nil => simp
  | cons p g ih =>
      simp only [List.map_cons, List.sum_cons]
      rw [← ih]
      ring

/-- C9: with `ord = 1` and `soft_label = False`, the `(tp, fp, fn)` triple
computed by the decoupled branch of `compute_tp_fp_fn` equals the triple
computed by the coupled (Tversky) branch, for every input/target tensor and
every reduction. -/
theorem compute_tp_fp_fn_ord1_coupled_eq :
    ∀ groups : List (List (ℚ × ℚ)),
      computeTpFpFn 1 false true groups = computeTpFpFn 1 false false groups := by
  intro groups
  simp [computeTpFpFn]
  exact ⟨fun g _ => sum_decoupled_fp g, fun g _ => sum_decoupled_fn g⟩

/-! ## monai/apps/datasets.py and monai/apps/auto3dseg/bundle_gen.py:
dataset / template downloads and the MedNIST data-list generation -/

/-- A call to `download_and_extract(url, filepath, output_dir, md5_value)`.
`download_and_extract` itself lives in monai/apps/utils.py, which is not under
`src/`; claim C2 only concerns the arguments it is invoked with, so the call
is recorded as an effect. -/
structure DownloadCall where
  url : String
  filepath : String
  output_dir : String
  md5 : String
deriving DecidableEq

/-- Python exceptions raised by the dataset constructors. -/
inductive DatasetErr where
  | valueError (msg : String)
  | runtimeError (msg : String)
deriving DecidableEq

/-- `MedNISTDataset.resource`. -/
def MedNIST_resource : String := "https://www.dropbox.com/s/5wwskxctvcxiuea/MedNIST.tar.gz?dl=1"

/-- `MedNISTDataset.md5`. -/
def MedNIST_md5 : String := "0bc7306e7427e00ad1c5526a6677552d"

/-- `MedNISTDataset.compressed_file_name`. -/
def MedNIST_compressed_file_name : String := "MedNIST.tar.gz"

/-- One iteration of the section filter in `MedNISTDataset._generate_data_list`:
given the section name, the fractions and this index's random draw
`self.rann`, decide whether the item is kept (`continue` skips it), raising
`ValueError` for an unknown section. -/
def medNISTKeep (sectionName : String) (valFrac testFrac rann : ℚ) : Except String Bool :=
  if sectionName = "training" then .ok (!decide (rann < valFrac + testFrac))
  else if sectionName = "validation" then .ok (decide (rann < valFrac))
  else if sectionName = "test" then
    .ok (!(decide (rann < valFrac) || decide (valFrac + testFrac ≤ rann)))
  else
    .error ("Unsupported section: " ++ sectionName ++
      ", available options are [\"training\", \"validation\", \"test\"].")

/-- `MedNISTDataset._generate_data_list` from datasets.py.  The directory
walk producing `image_files_list` / `image_class` is summarised as `entries`:
one `(file, class)` item per image, paired with the random draw `self.rann`
that `self.randomize()` produces for that index (the generator draws one
number per index regardless of the section).  Mirroring the source, the
unsupported-section `ValueError` is raised inside the per-index loop, so an
empty listing raises nothing. -/
def generateDataList (sectionName : String) (valFrac testFrac : ℚ)
    (entries : List ((String × ℕ) × ℚ)) : Except String (List (String × ℕ)) :=
  match entries with
  | [] => .ok []
  | (item, rann) :: rest => do
      let keep ← medNISTKeep sectionName valFrac testFrac rann
      let d ← generateDataList sectionName valFrac testFrac rest
      pure (if keep then item :: d else d)

/-- `MedNISTDataset.__init__` from datasets.py; filesystem facts
(`os.path.isdir`, `os.path.exists`) are passed as booleans and the
`download_and_extract` call is recorded as an effect, which is visible even
when a later step raises. -/
def medNISTInit (rootDir : String) (rootIsDir download datasetDirExists : Bool)
    (sectionName : String) (valFrac testFrac : ℚ)
    (entries : List ((String × ℕ) × ℚ)) :
    List DownloadCall × Except DatasetErr (List (String × ℕ)) :=
  if ¬ rootIsDir then
    ([], .error (.valueError "Root directory root_dir must be a directory."))
  else
    let tarfileName := rootDir ++ "/" ++ MedNIST_compressed_file_name
    let calls := if download then
        [⟨MedNIST_resource, tarfileName, rootDir, MedNIST_md5⟩] else []
    if ¬ datasetDirExists then
      (calls, .error (.runtimeError
        "Cannot find dataset directory, please use download=True to download it."))
    else
      match generateDataList sectionName valFrac testFrac entries with
      | .error e => (calls, .error (.valueError e))
      | .ok data => (calls, .ok data)

/-- `DecathlonDataset.resource`. -/
def Decathlon_resource : List (String × String) :=
  [("Task01_BrainTumour", "https://msd-for-monai.s3-us-west-2.amazonaws.com/Task01_BrainTumour.tar"),
   ("Task02_Heart", "https://msd-for-monai.s3-us-west-2.amazonaws.com/Task02_Heart.tar"),
   ("Task03_Liver", "https://msd-for-monai.s3-us-west-2.amazonaws.com/Task03_Liver.tar"),
   ("Task04_Hippocampus", "https://msd-for-monai.s3-us-west-2.amazonaws.com/Task04_Hippocampus.tar"),
   ("Task05_Prostate", "https://msd-for-monai.s3-us-west-2.amazonaws.com/Task05_Prostate.tar"),
   ("Task06_Lung", "https://msd-for-monai.s3-us-west-2.amazonaws.com/Task06_Lung.tar"),
   ("Task07_Pancreas", "https://msd-for-monai.s3-us-west-2.amazonaws.com/Task07_Pancreas.tar"),
   ("Task08_HepaticVessel", "https://msd-for-monai.s3-us-west-2.amazonaws.com/Task08_HepaticVessel.tar"),
   ("Task09_Spleen", "https://msd-for-monai.s3-us-west-2.amazonaws.com/Task09_Spleen.tar"),
   ("Task10_Colon", "https://msd-for-monai.s3-us-west-2.amazonaws.com/Task10_Colon.tar")]

/-- `DecathlonDataset.md5`. -/
def Decathlon_md5 : List (String × String) :=
  [("Task01_BrainTumour", "240a19d752f0d9e9101544901065d872"),
   ("Task02_Heart", "06ee59366e1e5124267b774dbd654057"),
   ("Task03_Liver", "a90ec6c4aa7f6a3d087205e23d4e6397"),
   ("Task04_Hippocampus", "9d24dba78a72977dbd1d2e110310f31b"),
   ("Task05_Prostate", "35138f08b1efaef89d7424d2bcc928db"),
   ("Task06_Lung", "8afd997733c7fc0432f71255ba4e52dc"),
   ("Task07_Pancreas", "4f7080cfca169fa8066d17ce6eb061e4"),
   ("Task08_HepaticVessel", "641d79e80ec66453921d997fbf12a29c"),
   ("Task09_Spleen", "410d4a301da4e5b2f6f86ec3ddba524e"),
   ("Task10_Colon", "bad7a188931dc2f6acf72b08eb6202d0")]

/-- `DecathlonDataset.__init__` from datasets.py, up to and including the
`download_and_extract` call and the dataset-directory existence check; the
data-list generation and property loading that follow involve files not under
`src/` and are outside claim C2. -/
def decathlonInit (rootDir : String) (rootIsDir : Bool) (task : String)
    (fold nsplits : ℤ) (download datasetDirExists : Bool) :
    List DownloadCall × Except DatasetErr Unit :=
  if ¬ rootIsDir then
    ([], .error (.valueError "Root directory root_dir must be a directory."))
  else if fold > nsplits - 1 then
    ([], .error (.valueError "fold index should be in [0, nsplit - 1]."))
  else
    match Decathlon_resource.lookup task with
    | none => ([], .error (.valueError ("Unsupported task: " ++ task)))
    | some url =>
      let md5Value := (Decathlon_md5.lookup task).getD ""
      let datasetDir := rootDir ++ "/" ++ task
      let calls := if download then [⟨url, datasetDir ++ ".tar", rootDir, md5Value⟩] else []
      if ¬ datasetDirExists then
        (calls, .error (.runtimeError
          "Cannot find dataset directory, please use download=True to download it."))
      else
        (calls, .ok ())

/-- Module-level `algo_zip` in bundle_gen.py. -/
def algo_zip : String :=
  "https://github.com/Project-MONAI/MONAI-extra-test-data/releases/download/0.8.1/algo_templates.tar.gz"

/-- Module-level `md5` next to `algo_zip` in bundle_gen.py. -/
def bundleGen_md5 : String := "c671dcd525a736f083ac1ca3d23a86dc"

/-- The `algos is None` download branch of `BundleGen.__init__` in
bundle_gen.py: with `algos=None` the algo templates are fetched into a fresh
temporary directory and extracted into `algo_path`; with explicit `algos`
nothing is downloaded. -/
def bundleGenDownloadCalls (algoPath : String) (algosIsNone : Bool)
    (tmpDirName : String) : List DownloadCall :=
  if algosIsNone then
    [⟨algo_zip, tmpDirName ++ "/algo_templates.tar.gz", algoPath, bundleGen_md5⟩]
  else []

lemma generateDataList_filter (sectionName : String) (valFrac testFrac : ℚ) (k : ℚ → Bool)
    (hk : ∀ r, medNISTKeep sectionName valFrac testFrac r = .ok (k r))
    (entries : List ((String × ℕ) × ℚ)) :
    generateDataList sectionName valFrac testFrac entries =
      .ok ((entries.filter fun e => k e.2).map (·.1)) := by
  induction entries with
  | nil => simp [generateDataList]
  | cons e rest ih =>
      obtain ⟨item, rann⟩ := e
      simp only [generateDataList, hk rann, ih, Except.bind, bind, pure, Except.pure,
        List.filter_cons]
      by_cases hkr : k rann
      · simp [hkr]
      · simp [hkr]

lemma medNISTKeep_exactly_one (valFrac testFrac r : ℚ) (ht : 0 ≤ testFrac) :
    (!decide (r < valFrac + testFrac)).toNat + (decide (r < valFrac)).toNat +
      (!(decide (r < valFrac) || decide (valFrac + testFrac ≤ r))).toNat = 1 := by
  by_cases h1 : r < valFrac <;> by_cases h2 : r < valFrac + testFrac
  · simp [h1, h2]
  · exfalso
    linarith
  · simp [h1, h2, not_le.mpr h2]
  · simp [h1, h2, not_lt.mp h2]

lemma count_partition (p1 p2 p3 : ℚ → Bool)
    (hx : ∀ r, (p1 r).toNat + (p2 r).toNat + (p3 r).toNat = 1)
    (entries : List ((String × ℕ) × ℚ)) (x : String × ℕ) :
    ((entries.filter fun e => p1 e.2).map (·.1)).count x +
    ((entries.filter fun e => p2 e.2).map (·.1)).count x +
    ((entries.filter fun e => p3 e.2).map (·.1)).count x =
      entries.countP fun e => decide (e.1 = x) := by
  induction entries with
  | nil => simp
  | cons e l ih =>
      have h := hx e.2
      by_cases hex : e.1 = x <;>
        cases hp1 : p1 e.2 <;> cases hp2 : p2 e.2 <;> cases hp3 : p3 e.2 <;>
        rw [hp1, hp2, hp3] at h <;>
        simp only [Bool.toNat_true, Bool.toNat_false] at h <;>
        first
          | omega
          | (simp [List.filter_cons, hp1, hp2, hp3, List.count_cons, List.countP_cons, hex]
             omega)

/-- C10: for a fixed random-draw sequence, fixed fractions (with a
non-negative test fraction, fractions being percentages) and a fixed image
listing, the three MedNIST sections partition the data: counted with
multiplicity, every image entry is assigned to exactly one of the `training`,
`validation` and `test` data lists, since the per-index draws agree across the
three constructions and the three selection predicates are pairwise disjoint
and exhaustive. -/
theorem medNIST_sections_partition (valFrac testFrac : ℚ) (ht : 0 ≤ testFrac)
    (entries : List ((String × ℕ) × ℚ)) :
    ∃ tr va te,
      generateDataList "training" valFrac testFrac entries = .ok tr ∧
      generateDataList "validation" valFrac testFrac entries = .ok va ∧
      generateDataList "test" valFrac testFrac entries = .ok te ∧
      ∀ x : String × ℕ,
        tr.count x + va.count x + te.count x =
          entries.countP fun e => decide (e.1 = x) := by
  refine ⟨_, _, _,
    generateDataList_filter "training" valFrac testFrac
      (fun r => !decide (r < valFrac + testFrac)) (fun r => rfl) entries,
    generateDataList_filter "validation" valFrac testFrac
      (fun r => decide (r < valFrac)) (fun r => rfl) entries,
    generateDataList_filter "test" valFrac testFrac
      (fun r => !(decide (r < valFrac) || decide (valFrac + testFrac ≤ r)))
      (fun r => rfl) entries,
    fun x => count_partition _ _ _
      (fun r => medNISTKeep_exactly_one valFrac testFrac r ht) entries x⟩

/-- Witness for C10 at a concrete listing and draw sequence. -/
theorem medNIST_sections_partition_witness :
    ∃ tr va te,
      generateDataList "training" (1/10) (1/10)
        [(("img_a.png", 0), 0), (("img_b.png", 1), 1/2)] = .ok tr ∧
      generateDataList "validation" (1/10) (1/10)
        [(("img_a.png", 0), 0), (("img_b.png", 1), 1/2)] = .ok va ∧
      generateDataList "test" (1/10) (1/10)
        [(("img_a.png", 0), 0), (("img_b.png", 1), 1/2)] = .ok te ∧
      ∀ x : String × ℕ,
        tr.count x + va.count x + te.count x =
          List.countP (fun e => decide (e.1 = x))
            [(("img_a.png", 0), 0), (("img_b.png", 1), 1/2)] :=
  medNIST_sections_partition (1/10) (1/10) (by norm_num)
    [(("img_a.png", 0), 0), (("img_b.png", 1), 1/2)]

/-- C6 counterexample: with an existing (but empty) dataset directory and the
unsupported section "foo", construction succeeds with an empty data list
instead of raising `ValueError`, because the unsupported-section check only
runs inside the per-image loop. -/
theorem medNIST_bad_section_no_raise_on_empty :
    medNISTInit "root" true false true "foo" (1/10) (1/10) [] = ([], .ok []) := by
  rfl

/-- C6 (amended): a MedNISTDataset constructed over an existing dataset
directory whose listing contains at least one image raises `ValueError`
reporting the unsupported section whenever the section is not one of
"training", "validation", "test". -/
theorem medNIST_bad_section_raises (rootDir : String) (download : Bool)
    (sectionName : String) (hs : sectionName ∉ ["training", "validation", "test"])
    (valFrac testFrac : ℚ) (entries : List ((String × ℕ) × ℚ)) (hne : entries ≠ []) :
    (medNISTInit rootDir true download true sectionName valFrac testFrac entries).2 =
      .error (.valueError ("Unsupported section: " ++ sectionName ++
        ", available options are [\"training\", \"validation\", \"test\"].")) := by
  simp only [List.mem_cons, List.not_mem_nil, or_false, not_or] at hs
  obtain ⟨h1, h2, h3⟩ := hs
  rcases entries with _ | ⟨⟨item, rann⟩, rest⟩
  · exact absurd rfl hne
  · simp [medNISTInit, generateDataList, medNISTKeep, h1, h2, h3,
      Except.bind, bind, pure, Except.pure]

/-- Witness for the amended C6 at a concrete bad section and one-image
listing. -/
theorem medNIST_bad_section_raises_witness :
    (medNISTInit "root" true false true "foo" (1/10) (1/10)
        [(("img_a.png", 0), 0)]).2 =
      .error (.valueError ("Unsupported section: " ++ "foo" ++
        ", available options are [\"training\", \"validation\", \"test\"].")) :=
  medNIST_bad_section_raises "root" false "foo" (by decide) (1/10) (1/10)
    [(("img_a.png", 0), 0)] (List.cons_ne_nil _ _)

/-- C2: every dataset / template download triggered with `download=True`
passes the MD5 checksum stored alongside the resource URL to
`download_and_extract`: MedNIST uses the class attributes
`(resource, md5)`, DecathlonDataset uses `resource[task]` together with
`md5[task]` for every supported task, and `BundleGen` with `algos=None` uses
the module-level `(algo_zip, md5)` pair. -/
theorem downloads_use_stored_md5 :
    (∀ (rootDir : String) (dirExists : Bool) (sectionName : String)
       (valFrac testFrac : ℚ) (entries : List ((String × ℕ) × ℚ)),
      (medNISTInit rootDir true true dirExists sectionName valFrac testFrac entries).1 =
        [⟨MedNIST_resource, rootDir ++ "/" ++ MedNIST_compressed_file_name,
          rootDir, MedNIST_md5⟩]) ∧
    (∀ (rootDir task url : String) (fold nsplits : ℤ) (dirExists : Bool),
      (task, url) ∈ Decathlon_resource → fold ≤ nsplits - 1 →
      ∃ m, Decathlon_md5.lookup task = some m ∧
        (decathlonInit rootDir true task fold nsplits true dirExists).1 =
          [⟨url, rootDir ++ "/" ++ task ++ ".tar", rootDir, m⟩]) ∧
    (∀ algoPath tmpDirName : String,
      bundleGenDownloadCalls algoPath true tmpDirName =
        [⟨algo_zip, tmpDirName ++ "/algo_templates.tar.gz", algoPath, bundleGen_md5⟩]) := by
  refine ⟨?_, ?_, ?_⟩
  · intro rootDir dirExists sectionName valFrac testFrac entries
    cases dirExists <;> simp [medNISTInit] <;>
      (cases h : generateDataList sectionName valFrac testFrac entries) <;> simp
  · intro rootDir task url fold nsplits dirExists hmem hfold
    have hnotgt : ¬ fold > nsplits - 1 := not_lt.mpr hfold
    have key : ∀ p ∈ Decathlon_resource, ∃ m, Decathlon_md5.lookup p.1 = some m ∧
        Decathlon_resource.lookup p.1 = some p.2 := by decide
    obtain ⟨m, hm, hr⟩ := key (task, url) hmem
    refine ⟨m, hm, ?_⟩
    cases dirExists <;> simp [decathlonInit, hnotgt, hr, hm]
  · intro algoPath tmpDirName
    simp [bundleGenDownloadCalls]

/-- Witness for C2 at concrete constructions of all three downloaders. -/
theorem downloads_use_stored_md5_witness :
    (medNISTInit "root" true true true "training" (1/10) (1/10) []).1 =
      [⟨MedNIST_resource, "root" ++ "/" ++ MedNIST_compressed_file_name,
        "root", MedNIST_md5⟩] ∧
    (∃ m, Decathlon_md5.lookup "Task09_Spleen" = some m ∧
      (decathlonInit "root" true "Task09_Spleen" 0 5 true true).1 =
        [⟨"https://msd-for-monai.s3-us-west-2.amazonaws.com/Task09_Spleen.tar",
          "root" ++ "/" ++ "Task09_Spleen" ++ ".tar", "root", m⟩]) ∧
    bundleGenDownloadCalls "." true "/tmp/dl" =
      [⟨algo_zip, "/tmp/dl" ++ "/algo_templates.tar.gz", ".", bundleGen_md5⟩] :=
  ⟨downloads_use_stored_md5.1 "root" true "training" (1/10) (1/10) [],
   downloads_use_stored_md5.2.1 "root" "Task09_Spleen"
     "https://msd-for-monai.s3-us-west-2.amazonaws.com/Task09_Spleen.tar"
     0 5 true (by decide) (by decide),
   downloads_use_stored_md5.2.2 "." "/tmp/dl"⟩

/-! ## monai/apps/auto3dseg/bundle_gen.py : BundleAlgo.train -/

/-- The result of `subprocess.run` (a `CompletedProcess`): return code and
captured output streams.  The `repr()`/escape post-processing of the captured
bytes is abstracted to the string contents themselves. -/
structure ProcResult where
  returncode : ℤ
  stdout : String
  stderr : String

/-- A value stored in the `train_params` dict: the device list under
`CUDA_VISIBLE_DEVICES`, or an ordinary value formatted into `--key=value`. -/
inductive PyVal where
  | ints (l : List ℤ)
  | str (s : String)

/-- Python `str()` of a `PyVal` (used by the `--key=value` formatting). -/
def pyValStr : PyVal → String
  | .str s => s
  | .ints l => "[" ++ String.intercalate ", " (l.map toString) ++ "]"

/-- Python `len(devices)`. -/
def pyLen : PyVal → ℕ
  | .ints l => l.length
  | .str s => s.length

/-- Python `",".join(str(x) for x in devices)`. -/
def pyJoinComma : PyVal → String
  | .ints l => String.intercalate "," (l.map toString)
  | .str s => String.intercalate "," (s.data.map toString)

/-- `params.pop("CUDA_VISIBLE_DEVICES")`'s effect on the dict (keys are
unique in a Python dict). -/
def popKey (params : List (String × PyVal)) (k : String) : List (String × PyVal) :=
  params.filter fun p => p.1 ≠ k

/-- The command string built by `BundleAlgo.train` (bundle_gen.py lines
207-223) for provided `train_params`: `torchrun --nnodes=1
--nproc_per_node=N` when the configured device count exceeds one, else
`python`, followed by `train.py run --config_file=... ` and the remaining
`--key=value` parameters.  `subprocess.run` receives `cmd.split()`. -/
def trainCmd (outputPath : String) (params : List (String × PyVal))
    (cudaCount : ℕ) : String :=
  let trainPy := outputPath ++ "/scripts/train.py"
  let configYaml := outputPath ++ "/configs/algo_config.yaml"
  let baseCmd := trainPy ++ " run --config_file=" ++ configYaml ++ " "
  let nDevices := match params.lookup "CUDA_VISIBLE_DEVICES" with
    | some devices => pyLen devices
    | none => cudaCount
  let rest := popKey params "CUDA_VISIBLE_DEVICES"
  let cmd := if nDevices > 1 then
      "torchrun --nnodes=1 --nproc_per_node=" ++ toString nDevices ++ " "
    else "python "
  let cmd := cmd ++ baseCmd
  rest.foldl (fun c kv => c ++ " --" ++ kv.1 ++ "=" ++ pyValStr kv.2) cmd

/-- The `CUDA_VISIBLE_DEVICES` entry the subprocess environment receives:
`devices_str` when truthy (the joined device list if the key was in
`train_params`), otherwise the inherited environment is left untouched. -/
def trainEnvCuda (params : List (String × PyVal)) : Option String :=
  match params.lookup "CUDA_VISIBLE_DEVICES" with
  | some devices =>
      let s := pyJoinComma devices
      if s ≠ "" then some s else none
  | none => none

/-- Errors `BundleAlgo.train` can raise. -/
inductive TrainErr where
  | unboundLocalError
  | runtimeError (msg : String)

/-- `BundleAlgo.train` from bundle_gen.py.  With `train_params=None` (the
default) the local `params` is never assigned, so the membership test
`"CUDA_VISIBLE_DEVICES" in params` raises `UnboundLocalError` before any
subprocess is launched.  Otherwise the command is built, launched once via
`run` (the `subprocess.run` behaviour, fed the command and the optional
`CUDA_VISIBLE_DEVICES` environment entry), and a nonzero return code is
turned into a `RuntimeError` carrying the code and the captured
stderr/stdout. -/
def train (outputPath : String) (trainParams : Option (List (String × PyVal)))
    (cudaCount : ℕ) (run : String → Option String → ProcResult) :
    Except TrainErr ProcResult :=
  match trainParams with
  | none => .error .unboundLocalError
  | some params =>
      let res := run (trainCmd outputPath params cudaCount) (trainEnvCuda params)
      if res.returncode ≠ 0 then
        .error (.runtimeError ("subprocess call error " ++ toString res.returncode ++ ": " ++
          res.stderr ++ ", " ++ res.stdout))
      else .ok res

/-- Specification-side spelling of the `--key=value` argument suffix. -/
def argsConcat (l : List (String × PyVal)) : String :=
  match l with
  | [] => ""
  | kv :: rest => " --" ++ kv.1 ++ "=" ++ pyValStr kv.2 ++ argsConcat rest

lemma foldl_args_eq (l : List (String × PyVal)) (c : String) :
    l.foldl (fun c kv => c ++ " --" ++ kv.1 ++ "=" ++ pyValStr kv.2) c =
      c ++ argsConcat l := by
  induction l generalizing c with
  | nil => simp [argsConcat]
  | cons kv rest ih =>
      rw [List.foldl_cons, ih, argsConcat]
      simp [String.append_assoc]

/-- C3: with `train_params` provided, `BundleAlgo.train` launches the
training command once and raises `RuntimeError` (whose message carries the
nonzero return code and the captured stderr/stdout) exactly when the launched
process exits with a nonzero status, returning the completed-process result on
a zero exit; with the default `train_params=None`, however, the launch is
never reached: `params` is referenced before assignment and
`UnboundLocalError` is raised. -/
theorem train_return_code_check :
    (∀ (outputPath : String) (cudaCount : ℕ) (run : String → Option String → ProcResult),
      train outputPath none cudaCount run = .error .unboundLocalError) ∧
    (∀ (outputPath : String) (params : List (String × PyVal)) (cudaCount : ℕ)
       (run : String → Option String → ProcResult),
      (train outputPath (some params) cudaCount run =
          .error (.runtimeError ("subprocess call error " ++
            toString (run (trainCmd outputPath params cudaCount)
              (trainEnvCuda params)).returncode ++ ": " ++
            (run (trainCmd outputPath params cudaCount) (trainEnvCuda params)).stderr ++
            ", " ++
            (run (trainCmd outputPath params cudaCount) (trainEnvCuda params)).stdout))
        ↔ (run (trainCmd outputPath params cudaCount)
            (trainEnvCuda params)).returncode ≠ 0) ∧
      (train outputPath (some params) cudaCount run =
          .ok (run (trainCmd outputPath params cudaCount) (trainEnvCuda params))
        ↔ (run (trainCmd outputPath params cudaCount)
            (trainEnvCuda params)).returncode = 0)) := by
  refine ⟨fun _ _ _ => rfl, ?_⟩
  intro outputPath params cudaCount run
  by_cases h : (run (trainCmd outputPath params cudaCount)
      (trainEnvCuda params)).returncode = 0 <;>
    constructor <;> simp [train, h]

/-- C4: the launch command of `BundleAlgo.train` is `torchrun --nnodes=1
--nproc_per_node=N` followed by the train-script invocation when the
configured device count `N` (the length of `train_params["CUDA_VISIBLE_DEVICES"]`
if present, else the CUDA device count) exceeds one, and `python` followed by
the same invocation otherwise; the command is unchanged when the device list
is replaced by another of the same length (the list itself reaches the
subprocess only through the `CUDA_VISIBLE_DEVICES` environment entry, which
carries the comma-joined devices); with `train_params=None` the command is
never built and `UnboundLocalError` is raised. -/
theorem train_cmd_spec :
    (∀ (outputPath : String) (cudaCount : ℕ) (run : String → Option String → ProcResult),
      train outputPath none cudaCount run = .error .unboundLocalError) ∧
    (∀ (outputPath : String) (params : List (String × PyVal)) (cudaCount : ℕ),
      trainCmd outputPath params cudaCount =
        (if 1 < (match params.lookup "CUDA_VISIBLE_DEVICES" with
                 | some devices => pyLen devices
                 | none => cudaCount) then
          "torchrun --nnodes=1 --nproc_per_node=" ++
            toString (match params.lookup "CUDA_VISIBLE_DEVICES" with
                      | some devices => pyLen devices
                      | none => cudaCount) ++ " "
         else "python ") ++
        (outputPath ++ "/scripts/train.py" ++ " run --config_file=" ++
          (outputPath ++ "/configs/algo_config.yaml") ++ " ") ++
        argsConcat (popKey params "CUDA_VISIBLE_DEVICES")) ∧
    (∀ (outputPath : String) (ds ds' : List ℤ) (rest : List (String × PyVal))
       (cudaCount : ℕ), ds.length = ds'.length →
      trainCmd outputPath (("CUDA_VISIBLE_DEVICES", .ints ds) :: rest) cudaCount =
        trainCmd outputPath (("CUDA_VISIBLE_DEVICES", .ints ds') :: rest) cudaCount) ∧
    (∀ (ds : List ℤ) (rest : List (String × PyVal)),
      String.intercalate "," (ds.map toString) ≠ "" →
      trainEnvCuda (("CUDA_VISIBLE_DEVICES", .ints ds) :: rest) =
        some (String.intercalate "," (ds.map toString))) ∧
    (∀ params : List (String × PyVal), params.lookup "CUDA_VISIBLE_DEVICES" = none →
      trainEnvCuda params = none) := by
  refine ⟨fun _ _ _ => rfl, ?_, ?_, ?_, ?_⟩
  · intro outputPath params cudaCount
    rw [trainCmd, foldl_args_eq]
  · intro outputPath ds ds' rest cudaCount hlen
    simp [trainCmd, List.lookup, pyLen, popKey, hlen]
  · intro ds rest hne
    simp [trainEnvCuda, List.lookup, pyJoinComma, hne]
  · intro params hnone
    simp [trainEnvCuda, hnone]

/-- Witness for C4 at concrete parameter dictionaries. -/
theorem train_cmd_spec_witness :
    (trainCmd "/out" [("CUDA_VISIBLE_DEVICES", .ints [1, 2]), ("lr", .str "0.1")] 0 =
      trainCmd "/out" [("CUDA_VISIBLE_DEVICES", .ints [5, 7]), ("lr", .str "0.1")] 0) ∧
    trainEnvCuda [("CUDA_VISIBLE_DEVICES", .ints [1, 2])] =
      some (String.intercalate "," (List.map toString ([1, 2] : List ℤ))) :=
  ⟨train_cmd_spec.2.2.1 "/out" [1, 2] [5, 7] [("lr", .str "0.1")] 0 rfl,
   train_cmd_spec.2.2.2.1 [1, 2] [] (by decide)⟩

/-! ## monai/apps/pathology/evaluators.py : EvaluateTumorFROC -/

/-- One entry of `EvaluateTumorFROC.data`, summarising what the per-sample
helpers read from it: the non-maximal-suppression outputs `self.nms(...)` on
the sample's probability map (`PathologyProbNMS` is not under `src/`, so its
output list of `(probability, x, y)` triples is carried directly), the
resolution level, and the prepared ground truth of `prepare_ground_truth`
(an abstract mask token plus the isolated-tumor-cell labels, the wholeslide
readers being outside `src/`). -/
structure FrocSample where
  nms_outputs : List (ℚ × ℚ × ℚ)
  level : ℤ
  ground_truth : ℕ
  itc_labels : List ℕ

/-- `EvaluateTumorFROC.prepare_inference_result`: unzips the nms outputs into
`(probs, x_coord, y_coord)` — in that order, per its own variable naming —
with empty arrays for an empty detection list. -/
def prepareInferenceResult (s : FrocSample) : List ℚ × List ℚ × List ℚ :=
  (s.nms_outputs.map (·.1), s.nms_outputs.map (·.2.1), s.nms_outputs.map (·.2.2))

/-- The loop body of `EvaluateTumorFROC.compute_fp_tp`: the caller unpacks
`probs, y_coord, x_coord = self.prepare_inference_result(sample)` — binding
the output produced as x-coordinates to `y_coord` and vice versa — and passes
them to `compute_fp_tp_probs` (monai.metrics, not under `src/`, abstracted as
`f` taking `(probs, y_coord, x_coord, evaluation_mask, labels_to_exclude,
resolution_level)`), extending the running FP/TP lists and target count. -/
def computeFpTpStep (f : List ℚ → List ℚ → List ℚ → ℕ → List ℕ → ℤ → List ℚ × List ℚ × ℕ)
    (acc : List ℚ × List ℚ × ℕ) (s : FrocSample) : List ℚ × List ℚ × ℕ :=
  let pr := prepareInferenceResult s
  let probs := pr.1
  let y_coord := pr.2.1
  let x_coord := pr.2.2
  let r := f probs y_coord x_coord s.ground_truth s.itc_labels s.level
  (acc.1 ++ r.1, acc.2.1 ++ r.2.1, acc.2.2 + r.2.2)

/-- `EvaluateTumorFROC.compute_fp_tp`: folds the loop body over all samples
and returns the accumulated FP probabilities, TP probabilities, total number
of targets and the number of images. -/
def computeFpTp (f : List ℚ → List ℚ → List ℚ → ℕ → List ℕ → ℤ → List ℚ × List ℚ × ℕ)
    (data : List FrocSample) : List ℚ × List ℚ × ℕ × ℕ :=
  let res := data.foldl (computeFpTpStep f) ([], [], 0)
  (res.1, res.2.1, res.2.2, data.length)

/-- C7 counterexample: with a recorder in place of `compute_fp_tp_probs` that
returns its `x_coord` and `y_coord` arguments, a single detection at
`(x, y) = (1, 2)` shows the `x_coord` argument receives `[2]` — the values
`prepare_inference_result` produced as y-coordinates — and not the produced
x-coordinates `[1]`: the coordinate roles are swapped, refuting the claim as
stated. -/
theorem computeFpTp_swapped_coords :
    computeFpTp (fun _ y_coord x_coord _ _ _ => (x_coord, y_coord, 0))
        [⟨[(1, 1, 2)], 0, 0, []⟩] = ([2], [1], 0, 1) ∧
    (prepareInferenceResult ⟨[(1, 1, 2)], 0, 0, []⟩).2.1 = [1] ∧
    (prepareInferenceResult ⟨[(1, 1, 2)], 0, 0, []⟩).2.2 = [2] ∧
    ([2] : List ℚ) ≠ [1] := by
  refine ⟨rfl, rfl, rfl, ?_⟩
  decide

lemma computeFpTp_foldl (f : List ℚ → List ℚ → List ℚ → ℕ → List ℕ → ℤ → List ℚ × List ℚ × ℕ)
    (data : List FrocSample) (a b : List ℚ) (n : ℕ) :
    data.foldl (computeFpTpStep f) (a, b, n) =
      (a ++ (data.map fun s =>
          (f (prepareInferenceResult s).1 (prepareInferenceResult s).2.1
            (prepareInferenceResult s).2.2 s.ground_truth s.itc_labels s.level).1).flatten,
       b ++ (data.map fun s =>
          (f (prepareInferenceResult s).1 (prepareInferenceResult s).2.1
            (prepareInferenceResult s).2.2 s.ground_truth s.itc_labels s.level).2.1).flatten,
       n + (data.map fun s =>
          (f (prepareInferenceResult s).1 (prepareInferenceResult s).2.1
            (prepareInferenceResult s).2.2 s.ground_truth s.itc_labels s.level).2.2).sum) := by
  induction data generalizing a b n with
  | nil => simp
  | cons s rest ih =>
      rw [List.foldl_cons]
      rw [show computeFpTpStep f (a, b, n) s =
        (a ++ (f (prepareInferenceResult s).1 (prepareInferenceResult s).2.1
            (prepareInferenceResult s).2.2 s.ground_truth s.itc_labels s.level).1,
         b ++ (f (prepareInferenceResult s).1 (prepareInferenceResult s).2.1
            (prepareInferenceResult s).2.2 s.ground_truth s.itc_labels s.level).2.1,
         n + (f (prepareInferenceResult s).1 (prepareInferenceResult s).2.1
            (prepareInferenceResult s).2.2 s.ground_truth s.itc_labels s.level).2.2) from rfl]
      rw [ih]
      simp [List.append_assoc]
      omega

/-- C7 (amended): for every sample, `compute_fp_tp` supplies the values
`prepare_inference_result` produced as x-coordinates to the `y_coord`
argument of `compute_fp_tp_probs` and the values produced as y-coordinates to
the `x_coord` argument (the coordinate roles are swapped relative to
`prepare_inference_result`'s naming, compensating the row/column order of the
NMS outputs), and it returns the FP and TP probabilities concatenated over
all samples together with the total number of targets and the number of
images. -/
theorem computeFpTp_spec
    (f : List ℚ → List ℚ → List ℚ → ℕ → List ℕ → ℤ → List ℚ × List ℚ × ℕ)
    (data : List FrocSample) :
    computeFpTp f data =
      ((data.map fun s =>
          (f (prepareInferenceResult s).1 (prepareInferenceResult s).2.1
            (prepareInferenceResult s).2.2 s.ground_truth s.itc_labels s.level).1).flatten,
       (data.map fun s =>
          (f (prepareInferenceResult s).1 (prepareInferenceResult s).2.1
            (prepareInferenceResult s).2.2 s.ground_truth s.itc_labels s.level).2.1).flatten,
       (data.map fun s =>
          (f (prepareInferenceResult s).1 (prepareInferenceResult s).2.1
            (prepareInferenceResult s).2.2 s.ground_truth s.itc_labels s.level).2.2).sum,
       data.length) := by
  unfold computeFpTp
  rw [computeFpTp_foldl]
  simp

/-! ## monai/data/inverse_batch_transform.py -/

/-- One record of an applied invertible transform, as stored in the
`<key>_transforms` list of an item: its `"class"` name and the recorded
`"orig_size"`. -/
structure TransformRecord where
  cls : String
  orig_size : List ℕ
deriving DecidableEq

/-- A value stored in a data item: an array (embedded as rationals) or a list
of applied-transform records. -/
inductive ItemVal where
  | arr (a : List ℚ)
  | tfms (ts : List TransformRecord)
deriving DecidableEq

/-- A per-item dictionary (keys are unique in a Python dict). -/
abbrev Item := List (String × ItemVal)

/-- Python dict assignment `d[k] = v`: replace in place, or append a new
binding. -/
def itemSet (d : Item) (k : String) (v : ItemVal) : Item :=
  if (d.lookup k).isSome then
    d.map fun p => if p.1 = k then (k, v) else p
  else d ++ [(k, v)]

/-- Errors `_BatchInverseDataset.__getitem__` can raise. -/
inductive InvErr where
  | keyError (k : String)
  | attributeError
  | indexError
  | runtimeError (msg : String)
deriving DecidableEq

/-- The body of the `for key in keys` loop of
`_BatchInverseDataset.__getitem__` (lines 46-52): pop the most recent
transform record of `data[key + "_transforms"]` (`KeyError` when the key is
missing, `AttributeError` when its value is not a list, `IndexError` when the
list is empty), raise `RuntimeError` when the popped record's class is not
"SpatialPadd", otherwise replace `data[key]` by the `CenterSpatialCrop` of
the recorded original size applied to it (`CenterSpatialCrop` lives in
monai/transforms/croppad, not under `src/`, and is abstracted as `crop`). -/
def processKey (crop : List ℕ → List ℚ → List ℚ) (d : Item) (k : String) :
    Except InvErr Item :=
  let tk := k ++ "_transforms"
  match d.lookup tk with
  | none => .error (.keyError tk)
  | some (.arr _) => .error .attributeError
  | some (.tfms ts) =>
    match ts.getLast? with
    | none => .error .indexError
    | some t =>
      let d := itemSet d tk (.tfms ts.dropLast)
      if t.cls ≠ "SpatialPadd" then
        .error (.runtimeError
          ("Expected most recent transform to have been SpatialPadd because " ++
           "pad_list_data_collate was used. Instead, found " ++ t.cls))
      else
        match d.lookup k with
        | some (.arr a) => .ok (itemSet d k (.arr (crop t.orig_size a)))
        | some (.tfms _) => .error .attributeError
        | none => .error (.keyError k)

/-- The `for key in keys` loop itself. -/
def processKeys (crop : List ℕ → List ℚ → List ℚ) (d : Item) (ks : List String) :
    Except InvErr Item :=
  match ks with
  | [] => .ok d
  | k :: rest => do
      let d' ← processKey crop d k
      processKeys crop d' rest

/-- `[key for key in data.keys() if str(key) + "_transforms" in data.keys()]`. -/
def deriveKeys (d : Item) : List String :=
  (d.map (·.1)).filter fun k => (d.lookup (k ++ "_transforms")).isSome

/-- `_BatchInverseDataset.__getitem__`: when pad collation was used, undo the
padding for every inverted key (the provided `self.keys`, or the keys that
carry a `_transforms` list) and only then apply the wrapped transform's
inverse (`InvertibleTransform.inverse` is not under `src/` and is abstracted
as `inv`; it receives `self.keys`, not the derived list); without pad
collation, apply the inverse directly. -/
def batchInverseGetItem (crop : List ℕ → List ℚ → List ℚ)
    (inv : Item → Option (List String) → Item)
    (padCollationUsed : Bool) (keys : Option (List String)) (item : Item) :
    Except InvErr Item :=
  if padCollationUsed then
    let ks := match keys with
      | some ks => ks
      | none => deriveKeys item
    (processKeys crop item ks).map fun d => inv d keys
  else
    .ok (inv item keys)

/-- Modelled from the spec: `BatchInverseTransform.__call__` routes the batch
through `decollate_batch` and a fresh `DataLoader` over
`_BatchInverseDataset` whose batch size matches the original loader, and
returns the first (only) batch.  `decollate_batch`, the loader and its
collation live in monai/data files that are not under `src/`; they are
abstracted as `decollate` (batch to per-item dictionaries) and `collate`
(re-assembling the per-item results), so the call decollates the batch,
applies `__getitem__` to every item in order and collates the results. -/
def mapExcept (f : Item → Except InvErr Item) : List Item → Except InvErr (List Item)
  | [] => .ok []
  | it :: rest => do
      let r ← f it
      let rs ← mapExcept f rest
      pure (r :: rs)

def batchInverseCall {β γ : Type} (crop : List ℕ → List ℚ → List ℚ)
    (inv : Item → Option (List String) → Item)
    (decollate : β → List Item) (collate : List Item → γ)
    (padCollationUsed : Bool) (batch : β) (keys : Option (List String)) :
    Except InvErr γ :=
  (mapExcept (batchInverseGetItem crop inv padCollationUsed keys) (decollate batch)).map collate

lemma mapExcept_ok (l : List Item) (g : Item → Item) :
    mapExcept (fun it => .ok (g it)) l = .ok (l.map g) := by
  induction l with
  | nil => rfl
  | cons it rest ih => simp [mapExcept, ih, Except.bind, bind, pure, Except.pure]

/-- C1: without pad collation `BatchInverseTransform.__call__` applies the
wrapped inverse directly to each decollated item; with pad collation it
decollates and, for each item and inverted key, pops the most recently
applied transform record, raises `RuntimeError` naming the found class if
that record is not a `SpatialPadd` record, and otherwise center-crops
`data[key]` back to the recorded original size before the wrapped inverse is
applied. -/
theorem batch_inverse_transform_spec :
    (∀ (β γ : Type) (crop : List ℕ → List ℚ → List ℚ)
       (inv : Item → Option (List String) → Item)
       (decollate : β → List Item) (collate : List Item → γ)
       (batch : β) (keys : Option (List String)),
      batchInverseCall crop inv decollate collate false batch keys =
        .ok (collate ((decollate batch).map fun it => inv it keys))) ∧
    (∀ (crop : List ℕ → List ℚ → List ℚ) (item : Item) (k : String)
       (ts : List TransformRecord) (t : TransformRecord),
      item.lookup (k ++ "_transforms") = some (.tfms ts) → ts.getLast? = some t →
      t.cls ≠ "SpatialPadd" →
      processKey crop item k = .error (.runtimeError
        ("Expected most recent transform to have been SpatialPadd because " ++
         "pad_list_data_collate was used. Instead, found " ++ t.cls))) ∧
    (∀ (crop : List ℕ → List ℚ → List ℚ) (item : Item) (k : String)
       (ts : List TransformRecord) (t : TransformRecord) (a : List ℚ),
      item.lookup (k ++ "_transforms") = some (.tfms ts) → ts.getLast? = some t →
      t.cls = "SpatialPadd" →
      (itemSet item (k ++ "_transforms") (.tfms ts.dropLast)).lookup k = some (.arr a) →
      processKey crop item k = .ok
        (itemSet (itemSet item (k ++ "_transforms") (.tfms ts.dropLast)) k
          (.arr (crop t.orig_size a)))) ∧
    (∀ (β γ : Type) (crop : List ℕ → List ℚ → List ℚ)
       (inv : Item → Option (List String) → Item)
       (decollate : β → List Item) (collate : List Item → γ)
       (batch : β) (keys : Option (List String)),
      batchInverseCall crop inv decollate collate true batch keys =
        (mapExcept (fun it =>
          (processKeys crop it (match keys with
            | some ks => ks
            | none => deriveKeys it)).map fun d => inv d keys)
          (decollate batch)).map collate) := by
  refine ⟨?_, ?_, ?_, ?_⟩
  · intro β γ crop inv decollate collate batch keys
    unfold batchInverseCall
    rw [show batchInverseGetItem crop inv false keys =
      fun item => (Except.ok (inv item keys) : Except InvErr Item) from rfl]
    rw [mapExcept_ok]
    rfl
  · intro crop item k ts t h1 h2 h3
    simp [processKey, h1, h2, h3]
  · intro crop item k ts t a h1 h2 h3 h4
    simp [processKey, h1, h2, h3, h4]
  · intro β γ crop inv decollate collate batch keys
    rfl

/-- Witness for C1 at a concrete item: the popped `SpatialPadd` record leads
to the crop-then-set result, and a non-`SpatialPadd` record raises
`RuntimeError`. -/
theorem batch_inverse_transform_spec_witness :
    processKey (fun _ a => a)
        [("image", .arr [1]), ("image_transforms", .tfms [⟨"SpatialPadd", [2, 2]⟩])]
        "image" =
      .ok (itemSet (itemSet
        [("image", .arr [1]), ("image_transforms", .tfms [⟨"SpatialPadd", [2, 2]⟩])]
        ("image" ++ "_transforms") (.tfms (List.dropLast [⟨"SpatialPadd", [2, 2]⟩])))
        "image" (.arr ((fun _ a => a) ([2, 2] : List ℕ) ([1] : List ℚ)))) ∧
    processKey (fun _ a => a)
        [("image", .arr [1]), ("image_transforms", .tfms [⟨"Flipd", [2, 2]⟩])]
        "image" =
      .error (.runtimeError
        ("Expected most recent transform to have been SpatialPadd because " ++
         "pad_list_data_collate was used. Instead, found " ++ "Flipd")) :=
  ⟨batch_inverse_transform_spec.2.2.1 (fun _ a => a)
      [("image", .arr [1]), ("image_transforms", .tfms [⟨"SpatialPadd", [2, 2]⟩])]
      "image" [⟨"SpatialPadd", [2, 2]⟩] ⟨"SpatialPadd", [2, 2]⟩ ([1] : List ℚ)
      rfl rfl rfl rfl,
   batch_inverse_transform_spec.2.1 (fun _ a => a)
      [("image", .arr [1]), ("image_transforms", .tfms [⟨"Flipd", [2, 2]⟩])]
      "image" [⟨"Flipd", [2, 2]⟩] ⟨"Flipd", [2, 2]⟩ rfl rfl (by decide)⟩
